import Mathlib

/-!
Verification of the Jira-Slack agent pipeline (`src/agent.py`).

Python strings are modelled as `List Char` (Python `len`/slicing are
character based, so `List.take`/`List.drop`/`List.length` match), machine
floats carrying classifier confidences and the configured threshold as `Rat`
(only order comparisons on small decimal literals occur), Python `dict.get`
with a default as `Option.getD`, and each fallible external service as an
explicit oracle function inside a `World` record.  Every external call the
code performs is recorded in a trace (`List Call`), and every `self.logger`
call in a log (`List LogEntry`), so "no issue is created", "no notification
is sent", "zero transition calls" are statements about those traces.
-/

set_option maxRecDepth 8000

/-- Python strings, modelled character by character. -/
abbrev PyStr := List Char

/-- Embed a Lean string literal as a Python string value. -/
def str (s : String) : PyStr := s.data

/-- The backtick character (written this way to keep source plain). -/
def tick : Char := ("`".data).headD ' '

/-- `'```'`, the markdown code-fence marker of `agent.py:224`. -/
def fence : PyStr := str "```"

/-- Python `str.isspace` characters relevant to `str.strip()`. -/
def pyWs (c : Char) : Bool :=
  c = ' ' || c = '\t' || c = '\n' || c = '\r' || c = '\x0b' || c = '\x0c'

/-- Python `str.strip()`: drop leading and trailing whitespace. -/
def pyStrip (s : PyStr) : PyStr :=
  ((s.dropWhile pyWs).reverse.dropWhile pyWs).reverse

/-- Characters of `s` before the first occurrence of `sep`; for an input
that is the remainder after a leading fence, this is `s.split(sep)[1]`
(Python `split` takes the leftmost next occurrence, exactly as here). -/
def takeUntilSep (sep : PyStr) : PyStr → PyStr
  | [] => []
  | c :: rest => if sep.isPrefixOf (c :: rest) then [] else c :: takeUntilSep sep rest

/-- Whether `sep` occurs (contiguously) anywhere in the string. -/
def containsSep (sep : PyStr) : PyStr → Bool
  | [] => false
  | c :: rest => sep.isPrefixOf (c :: rest) || containsSep sep rest

/-- `agent.py:226-227`: after fence removal, drop a leading `json` tag. -/
def stripTag (t : PyStr) : PyStr :=
  if (str "json").isPrefixOf t then t.drop 4 else t

/-- `agent.py:221-228`: strip the raw model response; if it starts with a
triple-backtick fence, take `split('```')[1]`, drop an optional leading
`json` language tag, and strip again. -/
def extractResponseText (raw : PyStr) : PyStr :=
  if fence.isPrefixOf (pyStrip raw) then
    pyStrip (stripTag (takeUntilSep fence ((pyStrip raw).drop 3)))
  else pyStrip raw

/-- The JSON object returned by the model (`agent.py:189-197`), as a typed
record; a `none` field models the key being absent from the dict, so
`Option.getD` is Python's `dict.get(key, default)`. -/
structure JsonVerdict where
  should_create_ticket : Option Bool
  confidence : Option Rat
  issue_type : Option PyStr
  summary : Option PyStr
  description : Option PyStr
  priority : Option PyStr
  reasoning : Option PyStr
deriving DecidableEq

/-- The `config['ai']` section used by `_analyze_message`. -/
structure AiConfig where
  detection_mode : PyStr
  confidence_threshold : Rat
deriving DecidableEq

/-- The `config['jira']` section. -/
structure JiraConfig where
  url : PyStr
  project_key : PyStr
  default_issue_type : PyStr
  default_priority : PyStr
  initial_status : Option PyStr
deriving DecidableEq

/-- The `ticket_info` dict built at `agent.py:241-246`. -/
structure TicketInfo where
  summary : Option PyStr
  description : Option PyStr
  issue_type : PyStr
  priority : PyStr
deriving DecidableEq

/-- `agent.py:233-236`: `result.get('should_create_ticket', False) and
result.get('confidence', 0) >= threshold`. -/
def gateOf (result : JsonVerdict) (threshold : Rat) : Bool :=
  result.should_create_ticket.getD false && decide (result.confidence.getD 0 ≥ threshold)

/-- `agent.py:241-246`: the `ticket_info` dict, defaulting issue type and
priority from configuration when the keys are absent. -/
def tiOf (result : JsonVerdict) (jcfg : JiraConfig) : TicketInfo :=
  { summary := result.summary
    description := result.description
    issue_type := result.issue_type.getD jcfg.default_issue_type
    priority := result.priority.getD jcfg.default_priority }

/-- One `self.logger.<level>(...)` call. -/
inductive LogEntry
  | debug (msg : PyStr)
  | info (msg : PyStr)
  | warning (msg : PyStr)
  | error (msg : PyStr)
deriving DecidableEq

/-- `_analyze_message` (`agent.py:172-252`).  The model transport is the
`resp` argument (`.error e` = any exception raised by the API call, `.ok
raw` = the response text), and `parseJson` is `json.loads` restricted to
verdict objects (`none` = `json.loads` raised).  The whole body sits in a
`try/except` returning `(False, None)` on any failure, so the embedding is
a total function. -/
def analyzeMessage (parseJson : PyStr → Option JsonVerdict) (acfg : AiConfig)
    (jcfg : JiraConfig) (resp : Except PyStr PyStr) :
    (Bool × Option TicketInfo) × List LogEntry :=
  match resp with
  | .error e => ((false, none), [LogEntry.error (str "Error in AI analysis: " ++ e)])
  | .ok raw =>
    match parseJson (extractResponseText raw) with
    | none =>
        -- json.loads raised JSONDecodeError; caught at agent.py:250-252
        ((false, none), [LogEntry.error (str "Error in AI analysis: JSONDecodeError")])
    | some result =>
      if gateOf result acfg.confidence_threshold then
        ((true, some (tiOf result jcfg)), [LogEntry.debug (str "AI Analysis")])
      else
        ((false, none), [LogEntry.debug (str "AI Analysis")])

example : pyStrip (str "  ab c\n") = str "ab c" := by decide
example : extractResponseText (str "```json\n\x7b\x7d\n```") = str "\x7b\x7d" := by decide
example : extractResponseText (str "```\n\x7b\x7d\n```") = str "\x7b\x7d" := by decide
example : extractResponseText (str " \x7b\x7d ") = str "\x7b\x7d" := by decide

/-- The `issue_dict` of `agent.py:282-293`: `priority = none` means the
`priority` key is absent from the dict sent to the tracker. -/
structure IssueDict where
  project_key : PyStr
  summary : Option PyStr
  description : PyStr
  issuetype : PyStr
  priority : Option PyStr
deriving DecidableEq

/-- One transition returned by `jira_client.transitions`, keeping the two
fields the code reads: `transition['id']` and `transition['to']['name']`. -/
structure JTransition where
  id : PyStr
  toName : PyStr
deriving DecidableEq

/-- One external (network) call made by the agent. -/
inductive Call
  | chatUsersInfo (user_id : PyStr)
  | jiraCreate (fields : IssueDict)
  | jiraGetIssue (key : PyStr)
  | jiraGetTransitions (key : PyStr)
  | jiraDoTransition (key : PyStr) (transition_id : PyStr)
  | chatPost (channel : PyStr) (thread_ts : Option PyStr) (text : PyStr)
deriving DecidableEq

/-- Responses of the external services, as oracles: `userName`/`userEmail`
answer `users_info`, `createResult` answers `create_issue` (`.error` = the
tracker raised), `issueStatus` is the re-fetched `issue.fields.status.name`,
`transitions` the available transitions, and `postOk` whether a
`chat_postMessage` to a given channel/thread succeeds. -/
structure World where
  userName : PyStr
  userEmail : PyStr
  createResult : IssueDict → Except PyStr PyStr
  issueStatus : PyStr → PyStr
  transitions : PyStr → List JTransition
  postOk : PyStr → Option PyStr → Bool

/-- Python `f"{x}"` on an optional string: `None` prints as `"None"`. -/
def pyShowOpt : Option PyStr → PyStr
  | none => str "None"
  | some s => s

/-- The description template of `agent.py:265-279` (Python `{{quote}}`
renders as a literal `\x7bquote\x7d` line). -/
def buildDescription (reporter_name reporter_email slack_channel slack_message : PyStr)
    (ai_description : Option PyStr) (now : PyStr) : PyStr :=
  str "*Reported by:* " ++ reporter_name ++ str " (" ++ reporter_email ++
  str ")\n*Slack Channel:* #" ++ slack_channel ++
  str "\n*Original Message:*\n\x7bquote\x7d\n" ++ slack_message ++
  str "\n\x7bquote\x7d\n\n---\n\n*AI-Generated Description:*\n" ++
  pyShowOpt ai_description ++
  str "\n\n---\n_This ticket was automatically created by the Jira-Slack AI Agent on " ++
  now ++ str "_\n"

/-- `agent.py:282-293`: build the issue fields.  The `try/except` at 290-293
wraps only the local dict update `issue_dict['priority'] = ...`, which is a
pure in-memory operation and cannot raise, so the `except` branch is dead
and the priority key is always present in the resulting dict. -/
def buildIssueDict (jcfg : JiraConfig) (ti : TicketInfo) (description : PyStr) : IssueDict :=
  { project_key := jcfg.project_key
    summary := ti.summary
    description := description
    issuetype := ti.issue_type
    priority := some ti.priority }

/-- `', '.join(available)` (`agent.py:342`). -/
def joinComma : List PyStr → PyStr
  | [] => []
  | [s] => s
  | s :: rest => s ++ str ", " ++ joinComma rest

/-- The warning text of `agent.py:339-343`, carrying the issue key, the
desired and current statuses, and the joined list of every available
transition target name. -/
def cannotTransitionMsg (key desired current : PyStr) (available : List PyStr) : PyStr :=
  str "Cannot transition " ++ key ++ str " to \x27" ++ desired ++
  str "\x27. Current status: \x27" ++ current ++
  str "\x27. Available transitions: " ++ joinComma available

/-- `_set_issue_status` (`agent.py:306-346`): re-fetch the issue, no-op when
already at the desired status, otherwise enumerate transitions and execute
the first whose target name matches; when none matches, log a warning with
the full list of target names.  Returns (calls made, log entries). -/
def setIssueStatus (w : World) (key desired : PyStr) : List Call × List LogEntry :=
  if w.issueStatus key = desired then
    ([Call.jiraGetIssue key],
     [LogEntry.debug (str "Issue " ++ key ++ str " already in \x27" ++ desired ++ str "\x27 status")])
  else
    match (w.transitions key).find? (fun t => t.toName == desired) with
    | some t =>
        ([Call.jiraGetIssue key, Call.jiraGetTransitions key, Call.jiraDoTransition key t.id],
         [LogEntry.info (str "Transitioned " ++ key ++ str " from \x27" ++ w.issueStatus key ++
            str "\x27 to \x27" ++ desired ++ str "\x27")])
    | none =>
        ([Call.jiraGetIssue key, Call.jiraGetTransitions key],
         [LogEntry.warning (cannotTransitionMsg key desired (w.issueStatus key)
            ((w.transitions key).map JTransition.toName))])

/-- `_create_jira_ticket` (`agent.py:254-304`): build the description and
fields, call `create_issue` (an exception there propagates to the caller,
so the result component is `.error`), then log and run the optional status
transition.  Returns (calls made, log entries, outcome). -/
def createJiraTicket (w : World) (jcfg : JiraConfig) (ti : TicketInfo)
    (reporter_name reporter_email slack_channel slack_message now : PyStr) :
    List Call × List LogEntry × Except PyStr PyStr :=
  match w.createResult (buildIssueDict jcfg ti
      (buildDescription reporter_name reporter_email slack_channel slack_message
        ti.description now)) with
  | .error e =>
      ([Call.jiraCreate (buildIssueDict jcfg ti
          (buildDescription reporter_name reporter_email slack_channel slack_message
            ti.description now))], [], .error e)
  | .ok key =>
      let rest :=
        match jcfg.initial_status with
        | some ds => setIssueStatus w key ds
        | none => ([], [])
      (Call.jiraCreate (buildIssueDict jcfg ti
          (buildDescription reporter_name reporter_email slack_channel slack_message
            ti.description now)) :: rest.1,
       LogEntry.info (str "Created Jira ticket " ++ key ++ str ": " ++ pyShowOpt ti.summary)
         :: rest.2,
       .ok key)

/-- The excerpt of `agent.py:365`:
`original_message[:200] + ('...' if len(original_message) > 200 else '')`. -/
def msgExcerpt (m : PyStr) : PyStr :=
  m.take 200 ++ (if 200 < m.length then str "..." else [])

/-- The part of the broadcast text at `agent.py:362-365` before the fenced
excerpt. -/
def notificationHead (issue_url issue_key channel_name user_id : PyStr) : PyStr :=
  str ":white_check_mark: *Jira Ticket Created*\n\n*Ticket:* <" ++ issue_url ++
  str "|" ++ issue_key ++ str ">\n*From:* <#" ++ channel_name ++
  str "> by <@" ++ user_id ++ str ">\n*Original Message:*\n"

/-- The full broadcast notification text of `agent.py:362-365`. -/
def notificationText (issue_url issue_key channel_name user_id original_message : PyStr) :
    PyStr :=
  notificationHead issue_url issue_key channel_name user_id ++
  str "```" ++ msgExcerpt original_message ++ str "```"

/-- The threaded confirmation text of `agent.py:379`. -/
def replyText (issue_url issue_key : PyStr) : PyStr :=
  str ":ticket: Created Jira ticket: <" ++ issue_url ++ str "|" ++ issue_key ++ str ">"

/-- `_send_notification` (`agent.py:348-385`): both `chat_postMessage`
calls sit inside one `try`; a failing first post raises, so the second is
never attempted, and the `except` logs instead of re-raising.  A failing
post is still an attempted call, so it appears in the trace. -/
def sendNotification (w : World)
    (notifChannel issue_key issue_url original_message channel_name user_id thread_ts : PyStr) :
    List Call × List LogEntry :=
  if w.postOk notifChannel none then
    if w.postOk channel_name (some thread_ts) then
      ([Call.chatPost notifChannel none
          (notificationText issue_url issue_key channel_name user_id original_message),
        Call.chatPost channel_name (some thread_ts) (replyText issue_url issue_key)],
       [LogEntry.info (str "Sent notification for " ++ issue_key)])
    else
      ([Call.chatPost notifChannel none
          (notificationText issue_url issue_key channel_name user_id original_message),
        Call.chatPost channel_name (some thread_ts) (replyText issue_url issue_key)],
       [LogEntry.error (str "Error sending notification")])
  else
    ([Call.chatPost notifChannel none
        (notificationText issue_url issue_key channel_name user_id original_message)],
     [LogEntry.error (str "Error sending notification")])

/-- `_process_message` (`agent.py:125-170`): analyze, and on a positive
gated verdict fetch the reporter, create the ticket and notify; every
exception is caught and logged at this boundary.  Returns (calls, logs). -/
def processMessage (w : World) (parseJson : PyStr → Option JsonVerdict)
    (acfg : AiConfig) (jcfg : JiraConfig) (notifChannel : PyStr)
    (resp : Except PyStr PyStr)
    (message_text user_id channel_name timestamp now : PyStr) :
    List Call × List LogEntry :=
  match analyzeMessage parseJson acfg jcfg resp with
  | ((true, some ti), alog) =>
    let cr := createJiraTicket w jcfg ti w.userName w.userEmail channel_name message_text now
    match cr.2.2 with
    | .error e =>
        (Call.chatUsersInfo user_id :: cr.1,
         LogEntry.info (str "Processing message") :: alog ++
           LogEntry.info (str "AI determined ticket should be created: " ++ pyShowOpt ti.summary)
             :: cr.2.1 ++ [LogEntry.error (str "Error processing message: " ++ e)])
    | .ok key =>
        let n := sendNotification w notifChannel key (jcfg.url ++ str "/browse/" ++ key)
                  message_text channel_name user_id timestamp
        (Call.chatUsersInfo user_id :: cr.1 ++ n.1,
         LogEntry.info (str "Processing message") :: alog ++
           LogEntry.info (str "AI determined ticket should be created: " ++ pyShowOpt ti.summary)
             :: cr.2.1 ++ n.2 ++ [LogEntry.info (str "Successfully created ticket " ++ key)])
  | ((true, none), alog) =>
      -- `ticket_info` is None: `ticket_info.get('summary')` at line 138 raises
      -- AttributeError, caught by the handler at agent.py:169-170
      ([], LogEntry.info (str "Processing message") :: alog ++
        [LogEntry.error (str "Error processing message: AttributeError")])
  | ((false, _), alog) =>
      ([], LogEntry.info (str "Processing message") :: alog ++
        [LogEntry.debug (str "AI determined no ticket needed")])

/-- The issue-create calls of a trace, with their field payloads. -/
def createdFields (cs : List Call) : List IssueDict :=
  cs.filterMap fun c => match c with | .jiraCreate d => some d | _ => none

/-- The chat posts of a trace. -/
def chatPostsOf (cs : List Call) : List Call :=
  cs.filter fun c => match c with | .chatPost _ _ _ => true | _ => false

/-- The transition-execution calls of a trace. -/
def transitionCallsOf (cs : List Call) : List Call :=
  cs.filter fun c => match c with | .jiraDoTransition _ _ => true | _ => false

/-- The process environment, restricted to the six secrets the code reads
via `os.getenv` (`none` = variable unset). -/
structure Env where
  SLACK_BOT_TOKEN : Option PyStr
  SLACK_SIGNING_SECRET : Option PyStr
  JIRA_EMAIL : Option PyStr
  JIRA_API_TOKEN : Option PyStr
  ANTHROPIC_API_KEY : Option PyStr
  SLACK_APP_TOKEN : Option PyStr
deriving DecidableEq

/-- Network sessions the constructors open: `slack_bolt.App` verifies its
token against the chat platform, `JIRA(...)` contacts the tracker server,
and `SocketModeHandler.start` opens the socket-mode connection.  (The
`Anthropic(...)` constructor performs no network call and so opens no
session here.) -/
inductive Session
  | slackApp
  | jiraClient
  | socketMode
deriving DecidableEq

/-- `main()` = `JiraSlackAgent()` then `start()` (`agent.py:27-47,65-102,
387-400,403-412`): each secret check happens immediately before its own
client is constructed, in source order — slack (`_init_slack`), jira
(`_init_jira`), anthropic (`_init_anthropic`), and only then, inside
`start()`, the socket token.  Returns (network sessions opened, `some`
error message when a `ValueError` was raised). -/
def agentStartup (e : Env) : List Session × Option PyStr :=
  match e.SLACK_BOT_TOKEN, e.SLACK_SIGNING_SECRET with
  | some _, some _ =>
    match e.JIRA_EMAIL, e.JIRA_API_TOKEN with
    | some _, some _ =>
      match e.ANTHROPIC_API_KEY with
      | some _ =>
        match e.SLACK_APP_TOKEN with
        | some _ => ([Session.slackApp, Session.jiraClient, Session.socketMode], none)
        | none =>
            ([Session.slackApp, Session.jiraClient],
             some (str "SLACK_APP_TOKEN must be set in .env file. This is required for Socket Mode. Generate it in your Slack app settings under \x27App-Level Tokens\x27."))
      | none =>
          ([Session.slackApp, Session.jiraClient],
           some (str "ANTHROPIC_API_KEY must be set in .env file"))
    | _, _ =>
        ([Session.slackApp],
         some (str "JIRA_EMAIL and JIRA_API_TOKEN must be set in .env file"))
  | _, _ =>
      ([], some (str "SLACK_BOT_TOKEN and SLACK_SIGNING_SECRET must be set in .env file"))

/-- A required secret is missing from the environment. -/
def missingRequiredSecret (e : Env) : Prop :=
  e.SLACK_BOT_TOKEN = none ∨ e.SLACK_SIGNING_SECRET = none ∨ e.JIRA_EMAIL = none ∨
  e.JIRA_API_TOKEN = none ∨ e.ANTHROPIC_API_KEY = none ∨ e.SLACK_APP_TOKEN = none

instance (e : Env) : Decidable (missingRequiredSecret e) := by
  unfold missingRequiredSecret; infer_instance

/-- 0.5, built with the explicit constructor so that kernel reduction
(`decide`) never has to normalise a fraction. -/
def q05 : Rat := ⟨1, 2, by norm_num, by norm_num⟩

/-- 0.7, likewise. -/
def q07 : Rat := ⟨7, 10, by norm_num, by norm_num⟩

/-- 0.9, likewise. -/
def q09 : Rat := ⟨9, 10, by norm_num, by norm_num⟩

/-- Concrete configuration fixture (threshold 0.7). -/
def acfg0 : AiConfig := { detection_mode := str "strict", confidence_threshold := q07 }

/-- Concrete configuration fixture. -/
def jcfg0 : JiraConfig :=
  { url := str "https://example.atlassian.net", project_key := str "PROJ"
    default_issue_type := str "Task", default_priority := str "Medium"
    initial_status := some (str "To Do") }

/-- Concrete oracle fixture where every external call succeeds. -/
def w0 : World :=
  { userName := str "Jane Doe", userEmail := str "jane@example.com"
    createResult := fun _ => .ok (str "PROJ-1")
    issueStatus := fun _ => str "To Do"
    transitions := fun _ => []
    postOk := fun _ _ => true }

/-- A verdict that passes the confidence gate (threshold 0.7). -/
def v0 : JsonVerdict :=
  { should_create_ticket := some true, confidence := some q09
    issue_type := some (str "Bug"), summary := some (str "Export button returns 500")
    description := some (str "The export button crashes with a 500 error")
    priority := some (str "High"), reasoning := some (str "clear bug report") }

/-- A verdict that fails the gate (`should_create_ticket` false,
confidence 0.5). -/
def vNeg : JsonVerdict :=
  { should_create_ticket := some false, confidence := some q05
    issue_type := none, summary := none, description := none, priority := none
    reasoning := none }

/-- A concrete `json.loads` oracle recognising two fixed response bodies. -/
def parse0 : PyStr → Option JsonVerdict := fun s =>
  if s = str "POS" then some v0 else if s = str "NEG" then some vNeg else none

/-- A tracker whose target project has no priority field in its workflow:
the create call is rejected whenever the payload carries a `priority` key. -/
def rejectPriorityWorld : World :=
  { w0 with createResult := fun d =>
      if d.priority.isSome then .error (str "Field \x27priority\x27 cannot be set") else .ok (str "PROJ-1") }

/-- A ticket-info fixture (the gated fields of `v0` under `jcfg0`). -/
def ti0 : TicketInfo := tiOf v0 jcfg0

/-- A chat platform where every `chat_postMessage` call raises. -/
def wFailPost : World := { w0 with postOk := fun _ _ => false }

/-- A tracker state with one transition, targeting a status other than the
desired one. -/
def w7 : World :=
  { w0 with issueStatus := fun _ => str "Backlog"
            transitions := fun _ => [{ id := str "11", toName := str "In Progress" }] }

/-- The first character, if any, is not Python whitespace. -/
def headNonWs (p : PyStr) : Bool :=
  match p.head? with
  | some c => !pyWs c
  | none => true

/-- The last character, if any, is not Python whitespace. -/
def lastNonWs (p : PyStr) : Bool :=
  match p.getLast? with
  | some c => !pyWs c
  | none => true

/-- A concrete JSON payload for the fenced-response witness. -/
def p6 : PyStr := str "\x7b\"a\": 1\x7d"

/-- An environment with every secret present except the socket token. -/
def envAllButAppToken : Env :=
  { SLACK_BOT_TOKEN := some (str "xoxb-1"), SLACK_SIGNING_SECRET := some (str "ss")
    JIRA_EMAIL := some (str "me@example.com"), JIRA_API_TOKEN := some (str "tok")
    ANTHROPIC_API_KEY := some (str "key"), SLACK_APP_TOKEN := none }

theorem createdFields_cons_usersInfo (u : PyStr) (l : List Call) :
    createdFields (Call.chatUsersInfo u :: l) = createdFields l := by
  simp [createdFields]

theorem createdFields_append (l m : List Call) :
    createdFields (l ++ m) = createdFields l ++ createdFields m := by
  simp [createdFields]

theorem createdFields_setIssueStatus (w : World) (k ds : PyStr) :
    createdFields (setIssueStatus w k ds).1 = [] := by
  by_cases h : w.issueStatus k = ds
  · simp [setIssueStatus, h, createdFields]
  · cases hf : (w.transitions k).find? (fun t => t.toName == ds) <;>
      simp [setIssueStatus, h, hf, createdFields]

theorem createdFields_sendNotification (w : World) (a b c d e f g : PyStr) :
    createdFields (sendNotification w a b c d e f g).1 = [] := by
  unfold sendNotification
  split_ifs <;> simp [createdFields]

theorem createdFields_createJiraTicket (w : World) (jcfg : JiraConfig) (ti : TicketInfo)
    (rn re ch msg now : PyStr) :
    createdFields (createJiraTicket w jcfg ti rn re ch msg now).1
      = [buildIssueDict jcfg ti (buildDescription rn re ch msg ti.description now)] := by
  unfold createJiraTicket
  cases hres : w.createResult (buildIssueDict jcfg ti
      (buildDescription rn re ch msg ti.description now)) with
  | error e => simp [createdFields]
  | ok key =>
    cases his : jcfg.initial_status with
    | none => simp [createdFields]
    | some ds =>
      simp only []
      rw [show createdFields (Call.jiraCreate (buildIssueDict jcfg ti
            (buildDescription rn re ch msg ti.description now)) :: (setIssueStatus w key ds).1)
          = buildIssueDict jcfg ti (buildDescription rn re ch msg ti.description now)
              :: createdFields (setIssueStatus w key ds).1 from by simp [createdFields],
          createdFields_setIssueStatus]

/-- C7: `_set_issue_status` first re-fetches the issue; when the current
status already equals the desired one it makes zero transition calls, and
when no available transition targets the desired status it completes (the
warning branch, no error) and logs the issue key, the current status and
the full list of available target names. -/
theorem C7_transition_noop_and_log (w : World) (key desired : PyStr) :
    ((setIssueStatus w key desired).1).head? = some (Call.jiraGetIssue key)
    ∧ (w.issueStatus key = desired →
        (setIssueStatus w key desired).1 = [Call.jiraGetIssue key]
        ∧ transitionCallsOf (setIssueStatus w key desired).1 = [])
    ∧ (w.issueStatus key ≠ desired →
        (∀ t ∈ w.transitions key, t.toName ≠ desired) →
        transitionCallsOf (setIssueStatus w key desired).1 = []
        ∧ (setIssueStatus w key desired).2
            = [LogEntry.warning (cannotTransitionMsg key desired (w.issueStatus key)
                ((w.transitions key).map JTransition.toName))]) := by
  refine ⟨?_, fun h => ?_, fun hne hall => ?_⟩
  · by_cases h : w.issueStatus key = desired
    · simp [setIssueStatus, h]
    · cases hf : (w.transitions key).find? (fun t => t.toName == desired) <;>
        simp [setIssueStatus, h, hf]
  · simp [setIssueStatus, h, transitionCallsOf]
  · have hf : (w.transitions key).find? (fun t => t.toName == desired) = none :=
      List.find?_eq_none.mpr (by intro t ht; simpa using hall t ht)
    simp [setIssueStatus, hne, hf, transitionCallsOf]

/-- C7 witness: a concrete state whose only transition targets a different
status. -/
theorem C7_transition_noop_and_log_w :
    transitionCallsOf (setIssueStatus w7 (str "PROJ-1") (str "To Do")).1 = []
    ∧ (setIssueStatus w7 (str "PROJ-1") (str "To Do")).2
        = [LogEntry.warning (cannotTransitionMsg (str "PROJ-1") (str "To Do") (str "Backlog")
            [str "In Progress"])] :=
  (C7_transition_noop_and_log w7 (str "PROJ-1") (str "To Do")).2.2 (by decide) (by decide)

/-- C8: the broadcast excerpt is the first 200 characters plus an ellipsis
when the message is longer than 200 characters, and the whole message
otherwise; the posted broadcast text embeds exactly that excerpt between
the code fences. -/
theorem C8_notification_excerpt (m : PyStr) :
    (200 < m.length → msgExcerpt m = m.take 200 ++ str "..." ∧ (msgExcerpt m).length = 203)
    ∧ (m.length ≤ 200 → msgExcerpt m = m)
    ∧ ∀ url key ch uid, notificationText url key ch uid m
        = notificationHead url key ch uid ++ str "```" ++ msgExcerpt m ++ str "```" := by
  refine ⟨fun h => ⟨by simp [msgExcerpt, h], ?_⟩, fun h => ?_, fun url key ch uid => rfl⟩
  · simp [msgExcerpt, h, str]
    omega
  · simp [msgExcerpt, Nat.not_lt.mpr h, List.take_of_length_le h]

/-- C8 witness: a 250-character message yields 200 characters plus an
ellipsis (203 in total); a 150-character message is reproduced in full. -/
theorem C8_notification_excerpt_w :
    (msgExcerpt (List.replicate 250 'a')).length = 203
    ∧ msgExcerpt (List.replicate 150 'b') = List.replicate 150 'b' :=
  ⟨((C8_notification_excerpt (List.replicate 250 'a')).1 (by simp)).2,
   (C8_notification_excerpt (List.replicate 150 'b')).2.1 (by simp)⟩

/-- C10: when the broadcast post to the notification channel fails, the
threaded confirmation in the source channel is never attempted — the trace
holds exactly the one failed broadcast call — and the failure is logged. -/
theorem C10_reply_skipped_on_broadcast_failure (w : World)
    (nc key url m ch uid ts : PyStr) (h : w.postOk nc none = false) :
    (sendNotification w nc key url m ch uid ts).1
      = [Call.chatPost nc none (notificationText url key ch uid m)]
    ∧ (sendNotification w nc key url m ch uid ts).2
        = [LogEntry.error (str "Error sending notification")]
    ∧ Call.chatPost ch (some ts) (replyText url key) ∉ (sendNotification w nc key url m ch uid ts).1 := by
  simp [sendNotification, h]

/-- C10 witness: a chat platform where posting raises. -/
theorem C10_reply_skipped_on_broadcast_failure_w :
    (sendNotification wFailPost (str "#notif") (str "PROJ-1") (str "u") (str "m") (str "chan")
      (str "U1") (str "1.0")).1
      = [Call.chatPost (str "#notif") none
          (notificationText (str "u") (str "PROJ-1") (str "chan") (str "U1") (str "m"))]
    ∧ Call.chatPost (str "chan") (some (str "1.0")) (replyText (str "u") (str "PROJ-1"))
        ∉ (sendNotification wFailPost (str "#notif") (str "PROJ-1") (str "u") (str "m")
            (str "chan") (str "U1") (str "1.0")).1 := by
  have h := C10_reply_skipped_on_broadcast_failure wFailPost (str "#notif") (str "PROJ-1")
    (str "u") (str "m") (str "chan") (str "U1") (str "1.0") rfl
  exact ⟨h.1, h.2.2⟩

/-- C5: a transport error or unparseable classifier response makes
`_analyze_message` return `(False, None)` with an error log entry, and the
router then performs no external call at all (nothing is raised past the
classification boundary). -/
theorem C5_classifier_failures_absorbed (parseJson : PyStr → Option JsonVerdict)
    (acfg : AiConfig) (jcfg : JiraConfig) :
    (∀ e, analyzeMessage parseJson acfg jcfg (.error e)
        = ((false, none), [LogEntry.error (str "Error in AI analysis: " ++ e)]))
    ∧ (∀ raw, parseJson (extractResponseText raw) = none →
        analyzeMessage parseJson acfg jcfg (.ok raw)
          = ((false, none), [LogEntry.error (str "Error in AI analysis: JSONDecodeError")]))
    ∧ (∀ w nc raw mt uid ch ts now, parseJson (extractResponseText raw) = none →
        (processMessage w parseJson acfg jcfg nc (.ok raw) mt uid ch ts now).1 = []) := by
  refine ⟨fun e => rfl, fun raw h => by simp [analyzeMessage, h],
    fun w nc raw mt uid ch ts now h => by simp [processMessage, analyzeMessage, h]⟩

/-- C5 witness: a concrete transport error and a concrete non-JSON body. -/
theorem C5_classifier_failures_absorbed_w :
    analyzeMessage parse0 acfg0 jcfg0 (.error (str "boom"))
      = ((false, none), [LogEntry.error (str "Error in AI analysis: boom")])
    ∧ analyzeMessage parse0 acfg0 jcfg0 (.ok (str "not json"))
      = ((false, none), [LogEntry.error (str "Error in AI analysis: JSONDecodeError")]) := by
  have h := C5_classifier_failures_absorbed parse0 acfg0 jcfg0
  exact ⟨h.1 (str "boom"), h.2.1 (str "not json") (by decide)⟩

/-- C9 counterexample: the ticket-building step embeds `datetime.now()` in
the description, so two invocations with the same verdict, reporter,
channel and text but different clock readings produce different drafts —
the step is not invocation-independent as the claim states. -/
theorem C9_counterexample_build_timestamp :
    buildDescription (str "Jane") (str "j@x") (str "chan") (str "msg") (some (str "d"))
        (str "2024-01-01 00:00:00")
      ≠ buildDescription (str "Jane") (str "j@x") (str "chan") (str "msg") (some (str "d"))
        (str "2024-01-01 00:00:01") := by decide

/-- C9 amended: with the single clock reading passed explicitly, the
ticket-building step is a pure function of the verdict fields, reporter
identity, channel, original text and that timestamp: the built description
quotes the original message verbatim, and no external call precedes the
issue-create call itself during ticket creation. -/
theorem C9_build_pure_given_time (w : World) (jcfg : JiraConfig) (ti : TicketInfo)
    (rn re ch msg now : PyStr) :
    (∃ pre post, buildDescription rn re ch msg ti.description now = pre ++ msg ++ post)
    ∧ ((createJiraTicket w jcfg ti rn re ch msg now).1).head?
        = some (Call.jiraCreate (buildIssueDict jcfg ti
            (buildDescription rn re ch msg ti.description now))) := by
  constructor
  · refine ⟨str "*Reported by:* " ++ rn ++ str " (" ++ re ++
      str ")\n*Slack Channel:* #" ++ ch ++ str "\n*Original Message:*\n\x7bquote\x7d\n",
      str "\n\x7bquote\x7d\n\n---\n\n*AI-Generated Description:*\n" ++
      pyShowOpt ti.description ++
      str "\n\n---\n_This ticket was automatically created by the Jira-Slack AI Agent on " ++
      now ++ str "_\n", ?_⟩
    simp [buildDescription, List.append_assoc]
  · unfold createJiraTicket
    cases hres : w.createResult (buildIssueDict jcfg ti
        (buildDescription rn re ch msg ti.description now)) <;> simp

/-- C3: the `try/except` at `agent.py:290-293` guards only a local dict
assignment that cannot raise, so the `priority` key is always present in
the payload; against a tracker whose project workflow rejects a priority
field, the create call itself fails (the exception propagates out of
`_create_jira_ticket`), contradicting the claim that priority assignment
cannot make the create call fail. -/
theorem C3_priority_guard_code_bug :
    (∀ (jcfg : JiraConfig) (ti : TicketInfo) (descr : PyStr),
        (buildIssueDict jcfg ti descr).priority = some ti.priority)
    ∧ (createJiraTicket rejectPriorityWorld jcfg0 ti0 (str "Jane") (str "j@x") (str "chan")
        (str "msg") (str "2024-01-01 00:00:00")).2.2
      = .error (str "Field \x27priority\x27 cannot be set") := by
  exact ⟨fun _ _ _ => rfl, rfl⟩

/-- C4 counterexample: with every secret present except the socket token,
startup does fail with an error, but only after the chat app and the
tracker client have already opened their network sessions — refuting
"before any network session is opened". -/
theorem C4_counterexample_startup_secrets :
    missingRequiredSecret envAllButAppToken
    ∧ ((agentStartup envAllButAppToken).2).isSome = true
    ∧ (agentStartup envAllButAppToken).1 ≠ [] := by decide

/-- C4 amended: whenever a required secret is missing, startup fails with a
descriptive (non-empty) error and the socket-mode connection is never
opened (no event is ever processed); however, the checks are interleaved
with client construction, so network sessions of clients built before the
failing check may already be open. -/
theorem C4_startup_fails_on_missing_secret (e : Env) (h : missingRequiredSecret e) :
    (∃ m, (agentStartup e).2 = some m ∧ m ≠ [])
    ∧ Session.socketMode ∉ (agentStartup e).1 := by
  rcases e with ⟨a, b, c, d, f, g⟩
  cases a <;> cases b <;> cases c <;> cases d <;> cases f <;> cases g <;>
    first
      | (refine ⟨⟨_, rfl, ?_⟩, ?_⟩ <;> first | decide | simp [agentStartup])
      | (exfalso; revert h; simp [missingRequiredSecret])

/-- C4 witness: the amended statement at the concrete environment missing
only the socket token. -/
theorem C4_startup_fails_on_missing_secret_w :
    (∃ m, (agentStartup envAllButAppToken).2 = some m ∧ m ≠ [])
    ∧ Session.socketMode ∉ (agentStartup envAllButAppToken).1 :=
  C4_startup_fails_on_missing_secret envAllButAppToken (by decide)

/-- C1: an issue-create call occurs only when the parsed verdict has
`should_create_ticket` true and confidence at or above the configured
threshold (`gateOf`); and whenever the gate fails, the trace holds no
issue-create call and no chat post at all. -/
theorem C1_ticket_creation_gated (w : World) (parseJson : PyStr → Option JsonVerdict)
    (acfg : AiConfig) (jcfg : JiraConfig) (nc mt uid ch ts now : PyStr) :
    (∀ resp, createdFields (processMessage w parseJson acfg jcfg nc resp mt uid ch ts now).1 ≠ [] →
        ∃ raw v, resp = .ok raw ∧ parseJson (extractResponseText raw) = some v
          ∧ gateOf v acfg.confidence_threshold = true)
    ∧ (∀ raw v, parseJson (extractResponseText raw) = some v →
        gateOf v acfg.confidence_threshold = false →
        createdFields (processMessage w parseJson acfg jcfg nc (.ok raw) mt uid ch ts now).1 = []
        ∧ chatPostsOf (processMessage w parseJson acfg jcfg nc (.ok raw) mt uid ch ts now).1
            = []) := by
  constructor
  · intro resp hne
    cases resp with
    | error e =>
        exact absurd (by simp [processMessage, analyzeMessage, createdFields]) hne
    | ok raw =>
      cases hp : parseJson (extractResponseText raw) with
      | none =>
          exact absurd (by simp [processMessage, analyzeMessage, hp, createdFields]) hne
      | some v =>
        cases hg : gateOf v acfg.confidence_threshold with
        | false =>
            exact absurd (by simp [processMessage, analyzeMessage, hp, hg, createdFields]) hne
        | true => exact ⟨raw, v, rfl, hp, hg⟩
  · intro raw v hp hg
    constructor <;> simp [processMessage, analyzeMessage, hp, hg, createdFields, chatPostsOf]

/-- C1 witness: a verdict with `should_create_ticket` false and confidence
0.5 against threshold 0.7 causes no create call and no post. -/
theorem C1_ticket_creation_gated_w :
    createdFields (processMessage w0 parse0 acfg0 jcfg0 (str "#notif") (.ok (str "NEG"))
      (str "msg") (str "U1") (str "chan") (str "1.0") (str "now")).1 = []
    ∧ chatPostsOf (processMessage w0 parse0 acfg0 jcfg0 (str "#notif") (.ok (str "NEG"))
        (str "msg") (str "U1") (str "chan") (str "1.0") (str "now")).1 = [] :=
  (C1_ticket_creation_gated w0 parse0 acfg0 jcfg0 (str "#notif") (str "msg") (str "U1")
    (str "chan") (str "1.0") (str "now")).2 (str "NEG") vNeg (by decide) (by decide)

/-- C2: when the gate passes, exactly one issue-create call is made, whose
summary is the verdict summary, whose issue type and priority are the
verdict fields with the configured defaults substituted when absent, and
whose description is the built description embedding the verdict
description. -/
theorem C2_single_create_call_fields (w : World) (parseJson : PyStr → Option JsonVerdict)
    (acfg : AiConfig) (jcfg : JiraConfig) (nc raw mt uid ch ts now : PyStr) (v : JsonVerdict)
    (hp : parseJson (extractResponseText raw) = some v)
    (hg : gateOf v acfg.confidence_threshold = true) :
    createdFields (processMessage w parseJson acfg jcfg nc (.ok raw) mt uid ch ts now).1
      = [buildIssueDict jcfg (tiOf v jcfg)
          (buildDescription w.userName w.userEmail ch mt v.description now)]
    ∧ (buildIssueDict jcfg (tiOf v jcfg)
        (buildDescription w.userName w.userEmail ch mt v.description now)).summary = v.summary
    ∧ (buildIssueDict jcfg (tiOf v jcfg)
        (buildDescription w.userName w.userEmail ch mt v.description now)).issuetype
          = v.issue_type.getD jcfg.default_issue_type
    ∧ (buildIssueDict jcfg (tiOf v jcfg)
        (buildDescription w.userName w.userEmail ch mt v.description now)).priority
          = some (v.priority.getD jcfg.default_priority)
    ∧ ∃ pre post, (buildIssueDict jcfg (tiOf v jcfg)
        (buildDescription w.userName w.userEmail ch mt v.description now)).description
          = pre ++ pyShowOpt v.description ++ post := by
  refine ⟨?_, rfl, rfl, rfl, ?_⟩
  · have hA : analyzeMessage parseJson acfg jcfg (.ok raw)
        = ((true, some (tiOf v jcfg)), [LogEntry.debug (str "AI Analysis")]) := by
      simp [analyzeMessage, hp, hg]
    unfold processMessage
    rw [hA]
    cases hc : (createJiraTicket w jcfg (tiOf v jcfg) w.userName w.userEmail ch mt now).2.2 with
    | error e =>
        simp only [hc]
        rw [createdFields_cons_usersInfo, createdFields_createJiraTicket]
        rfl
    | ok key =>
        simp only [hc]
        rw [show Call.chatUsersInfo uid
              :: (createJiraTicket w jcfg (tiOf v jcfg) w.userName w.userEmail ch mt now).1
              ++ (sendNotification w nc key (jcfg.url ++ str "/browse/" ++ key) mt ch uid ts).1
            = Call.chatUsersInfo uid
              :: ((createJiraTicket w jcfg (tiOf v jcfg) w.userName w.userEmail ch mt now).1
                ++ (sendNotification w nc key (jcfg.url ++ str "/browse/" ++ key) mt ch
                    uid ts).1) from rfl,
           createdFields_cons_usersInfo, createdFields_append,
           createdFields_createJiraTicket, createdFields_sendNotification]
        simp only [List.append_nil]
        rfl
  · refine ⟨str "*Reported by:* " ++ w.userName ++ str " (" ++ w.userEmail ++
      str ")\n*Slack Channel:* #" ++ ch ++ str "\n*Original Message:*\n\x7bquote\x7d\n" ++
      mt ++ str "\n\x7bquote\x7d\n\n---\n\n*AI-Generated Description:*\n",
      str "\n\n---\n_This ticket was automatically created by the Jira-Slack AI Agent on " ++
      now ++ str "_\n", ?_⟩
    simp [buildIssueDict, buildDescription, List.append_assoc]

/-- C2 witness: the gate-passing verdict `v0` produces exactly the one
create call with its fields. -/
theorem C2_single_create_call_fields_w :
    createdFields (processMessage w0 parse0 acfg0 jcfg0 (str "#notif") (.ok (str "POS"))
      (str "msg") (str "U1") (str "chan") (str "1.0") (str "now")).1
      = [buildIssueDict jcfg0 (tiOf v0 jcfg0)
          (buildDescription w0.userName w0.userEmail (str "chan") (str "msg") v0.description
            (str "now"))] :=
  (C2_single_create_call_fields w0 parse0 acfg0 jcfg0 (str "#notif") (str "POS") (str "msg")
    (str "U1") (str "chan") (str "1.0") (str "now") v0 (by decide) (by decide)).1

theorem headNonWs_spec (p : PyStr) (h : headNonWs p = true) :
    ∀ c, p.head? = some c → pyWs c = false := by
  intro c hc
  unfold headNonWs at h
  rw [hc] at h
  simpa using h

theorem lastNonWs_spec (p : PyStr) (h : lastNonWs p = true) :
    ∀ c, p.getLast? = some c → pyWs c = false := by
  intro c hc
  unfold lastNonWs at h
  rw [hc] at h
  simpa using h

theorem isPrefixOf_append_self (l m : PyStr) : l.isPrefixOf (l ++ m) = true := by
  induction l with
  | nil => simp [List.isPrefixOf]
  | cons a as ih => simp [List.isPrefixOf, ih]

theorem dropWhile_eq_self_of_head (p : Char → Bool) (l : PyStr)
    (h : ∀ c, l.head? = some c → p c = false) : l.dropWhile p = l := by
  cases l with
  | nil => rfl
  | cons a t => simp [List.dropWhile_cons, h a rfl]

theorem pyStrip_eq_self (l : PyStr) (hh : ∀ c, l.head? = some c → pyWs c = false)
    (hl : ∀ c, l.getLast? = some c → pyWs c = false) : pyStrip l = l := by
  unfold pyStrip
  rw [dropWhile_eq_self_of_head pyWs l hh,
    dropWhile_eq_self_of_head pyWs l.reverse
      (by intro c hc; exact hl c (by rwa [List.head?_reverse] at hc)),
    List.reverse_reverse]

theorem pyStrip_pad (p : PyStr) (hne : p ≠ [])
    (hh : ∀ c, p.head? = some c → pyWs c = false)
    (hl : ∀ c, p.getLast? = some c → pyWs c = false) :
    pyStrip ('\n' :: (p ++ ['\n'])) = p := by
  obtain ⟨a, t, rfl⟩ : ∃ a t, p = a :: t := by
    cases p with
    | nil => exact absurd rfl hne
    | cons a t => exact ⟨a, t, rfl⟩
  have h2 : pyWs a = false := hh a rfl
  have hnl : pyWs '\n' = true := rfl
  unfold pyStrip
  rw [show ('\n' :: (a :: t ++ ['\n'])).dropWhile pyWs = (a :: (t ++ ['\n'])).dropWhile pyWs from by
      simp [List.dropWhile_cons, hnl],
    show (a :: (t ++ ['\n'])).dropWhile pyWs = a :: (t ++ ['\n']) from by
      simp [List.dropWhile_cons, h2],
    show ((a :: (t ++ ['\n'])) : PyStr).reverse = '\n' :: (a :: t).reverse from by simp,
    show ('\n' :: (a :: t).reverse).dropWhile pyWs = (a :: t).reverse.dropWhile pyWs from by
      simp [List.dropWhile_cons, hnl],
    dropWhile_eq_self_of_head pyWs (a :: t).reverse
      (by intro c hc; exact hl c (by rwa [List.head?_reverse] at hc)),
    List.reverse_reverse]

theorem takeUntilSep_fence_append (xs ys : PyStr) (h1 : containsSep fence xs = false)
    (h2 : xs.getLast? ≠ some tick) :
    takeUntilSep fence (xs ++ fence ++ ys) = xs := by
  induction xs with
  | nil =>
    have h : fence.isPrefixOf (tick :: tick :: tick :: ys) = true :=
      isPrefixOf_append_self fence ys
    simp only [List.nil_append]
    show takeUntilSep fence (tick :: tick :: tick :: ys) = []
    simp [takeUntilSep, h]
  | cons a as ih =>
    have h1s : fence.isPrefixOf (a :: as) = false ∧ containsSep fence as = false := by
      have := h1
      simp [containsSep] at this
      exact this
    have h2' : as.getLast? ≠ some tick := by
      cases as with
      | nil => simp
      | cons b bs => rw [List.getLast?_cons_cons] at h2; exact h2
    have hpre : fence.isPrefixOf (a :: (as ++ fence ++ ys)) = false := by
      cases as with
      | nil =>
        have ha : a ≠ tick := by simpa using h2
        show ([tick, tick, tick] : PyStr).isPrefixOf (a :: (([] ++ fence) ++ ys)) = false
        simp only [List.nil_append]
        show ([tick, tick, tick] : PyStr).isPrefixOf (a :: (tick :: tick :: tick :: ys)) = false
        simp [List.isPrefixOf]
        intro h
        exact absurd h.symm ha
      | cons b bs =>
        cases bs with
        | nil =>
          have hb : b ≠ tick := by simpa using h2
          show ([tick, tick, tick] : PyStr).isPrefixOf
            (a :: (([b] ++ fence) ++ ys)) = false
          simp only [List.cons_append, List.nil_append]
          show ([tick, tick, tick] : PyStr).isPrefixOf
            (a :: b :: tick :: tick :: tick :: ys) = false
          simp [List.isPrefixOf]
          intro _ h
          exact absurd h.symm hb
        | cons c cs =>
          have hne3 : ¬(a = tick ∧ b = tick ∧ c = tick) := by
            intro ⟨ha, hb, hc⟩
            subst ha; subst hb; subst hc
            have : fence.isPrefixOf (tick :: tick :: tick :: cs) = true := by
              show ([tick, tick, tick] : PyStr).isPrefixOf (tick :: tick :: tick :: cs) = true
              simp [List.isPrefixOf]
            rw [this] at h1s
            exact absurd h1s.1 (by simp)
          show ([tick, tick, tick] : PyStr).isPrefixOf
            (a :: ((b :: c :: cs ++ fence) ++ ys)) = false
          simp only [List.cons_append]
          show ([tick, tick, tick] : PyStr).isPrefixOf
            (a :: b :: c :: ((cs ++ fence) ++ ys)) = false
          simp [List.isPrefixOf]
          intro ha hb hc
          exact hne3 ⟨ha.symm, hb.symm, hc.symm⟩
    simp only [List.cons_append]
    rw [show takeUntilSep fence (a :: (as ++ fence ++ ys))
        = if fence.isPrefixOf (a :: (as ++ fence ++ ys)) then []
          else a :: takeUntilSep fence (as ++ fence ++ ys) from rfl,
      hpre]
    simp only [Bool.false_eq_true, if_false]
    rw [ih h1s.2 h2']

theorem extract_wrapped (tag p : PyStr)
    (htag : tag = str "json" ∨ tag = [])
    (hne : p ≠ [])
    (hh : headNonWs p = true) (hl : lastNonWs p = true)
    (hno : containsSep fence (tag ++ '\n' :: (p ++ ['\n'])) = false) :
    extractResponseText (fence ++ (tag ++ '\n' :: (p ++ '\n' :: fence))) = p := by
  have hhs := headNonWs_spec p hh
  have hls := lastNonWs_spec p hl
  have hWlast : (fence ++ (tag ++ '\n' :: (p ++ '\n' :: fence))).getLast? = some tick := by
    rw [show fence ++ (tag ++ '\n' :: (p ++ '\n' :: fence))
        = (fence ++ tag ++ '\n' :: (p ++ ['\n', tick, tick])) ++ [tick] from by
          simp [fence, str, tick], List.getLast?_concat]
  have hstrip : pyStrip (fence ++ (tag ++ '\n' :: (p ++ '\n' :: fence)))
      = fence ++ (tag ++ '\n' :: (p ++ '\n' :: fence)) := by
    refine pyStrip_eq_self _ ?_ ?_
    · intro c hc
      rw [show (fence ++ (tag ++ '\n' :: (p ++ '\n' :: fence))).head? = some tick from rfl] at hc
      cases hc
      rfl
    · intro c hc
      rw [hWlast] at hc
      cases hc
      rfl
  have hpre : fence.isPrefixOf (fence ++ (tag ++ '\n' :: (p ++ '\n' :: fence))) = true :=
    isPrefixOf_append_self _ _
  have hdrop : (fence ++ (tag ++ '\n' :: (p ++ '\n' :: fence))).drop 3
      = tag ++ '\n' :: (p ++ '\n' :: fence) :=
    List.drop_left fence _
  have hsplit : tag ++ '\n' :: (p ++ '\n' :: fence)
      = (tag ++ '\n' :: (p ++ ['\n'])) ++ fence ++ [] := by
    simp
  have hlast : (tag ++ '\n' :: (p ++ ['\n'])).getLast? ≠ some tick := by
    rw [show tag ++ '\n' :: (p ++ ['\n']) = (tag ++ '\n' :: p) ++ ['\n'] from by simp,
      List.getLast?_concat]
    simp [tick, str]
  have htake : takeUntilSep fence (tag ++ '\n' :: (p ++ '\n' :: fence))
      = tag ++ '\n' :: (p ++ ['\n']) := by
    rw [hsplit, takeUntilSep_fence_append _ _ hno hlast]
  have htagstrip : stripTag (tag ++ '\n' :: (p ++ ['\n'])) = '\n' :: (p ++ ['\n']) := by
    rcases htag with h | h
    · subst h
      unfold stripTag
      rw [show (str "json").isPrefixOf (str "json" ++ '\n' :: (p ++ ['\n'])) = true from
          isPrefixOf_append_self _ _]
      simp only [if_true]
      exact List.drop_left (str "json") _
    · subst h
      unfold stripTag
      rw [show (str "json").isPrefixOf ([] ++ '\n' :: (p ++ ['\n'])) = false from rfl]
      simp
  unfold extractResponseText
  rw [hstrip, hpre]
  simp only [if_true]
  rw [hdrop, htake, htagstrip, pyStrip_pad p hne hhs hls]

/-- C6: a classifier response wrapped in triple-backtick code fences, with
or without a leading `json` language tag, is analyzed identically to the
bare payload: the fence-stripping of `_analyze_message` recovers exactly
the unwrapped JSON text. -/
theorem C6_fenced_response_parses_same (parseJson : PyStr → Option JsonVerdict)
    (acfg : AiConfig) (jcfg : JiraConfig) (tag p : PyStr)
    (htag : tag = str "json" ∨ tag = []) (hne : p ≠ [])
    (hh : headNonWs p = true) (hl : lastNonWs p = true)
    (hpf : fence.isPrefixOf p = false)
    (hno : containsSep fence (tag ++ '\n' :: (p ++ ['\n'])) = false) :
    analyzeMessage parseJson acfg jcfg
        (.ok (fence ++ (tag ++ '\n' :: (p ++ '\n' :: fence))))
      = analyzeMessage parseJson acfg jcfg (.ok p) := by
  have h1 := extract_wrapped tag p htag hne hh hl hno
  have h2 : extractResponseText p = p := by
    unfold extractResponseText
    rw [pyStrip_eq_self p (headNonWs_spec p hh) (lastNonWs_spec p hl), hpf]
    simp
  simp only [analyzeMessage]
  rw [h1, h2]

/-- C6 witness: a concrete JSON object wrapped as ```` ```json ... ``` ````
and bare. -/
theorem C6_fenced_response_parses_same_w :
    analyzeMessage parse0 acfg0 jcfg0
        (.ok (fence ++ (str "json" ++ '\n' :: (p6 ++ '\n' :: fence))))
      = analyzeMessage parse0 acfg0 jcfg0 (.ok p6) :=
  C6_fenced_response_parses_same parse0 acfg0 jcfg0 (str "json") p6 (Or.inl rfl)
    (by decide) (by decide) (by decide) (by decide) (by decide)
